import Mathlib

/-!
Shallow embedding of the PJ-1203A zigbee2mqtt external converter
(repository z2m_PJ-1203A).  The repository contains several near-duplicate
variants of the same converter:

* the V5 variant (file with the single-zero removal option, functions
  pj1203aGetPrivateState, pj1203aFlushAll, pj1203aFlushZero, pj1203aFlushNull,
  pj1203aRecomputePowerAb, pj1203aValueConverters, pj1203aFzDatapoints) and the
  essentially identical v3/v4 variants;
* the v1 variant (functions PJ1203A_providePrivateState, PJ1203A_flush_all
  with a clear flag, PJ1203A_flush_zero, PJ1203A_next_seq, the publishing_mode
  and missing_data_behavior options, and a datapoint table that maps
  datapoint 115 directly to the attribute power_ab).

JavaScript numbers are modelled as rationals, null fields as Option, and the
wall clock (Date) as an explicit parameter.  The 16-bit mask x and 0xffff of
the sequence arithmetic is modelled as the Euclidean remainder by 65536, which
agrees with the JavaScript bitwise AND for every value reachable here.
-/

namespace PJ1203A

/-- One of the two independent measurement channels of the device. -/
inductive Chan where
  | a
  | b
deriving DecidableEq, Repr

/-- Energy-flow labels used by the converters: consuming and producing are the
two direction labels, sign is the fixed label of signed-power mode, unknown is
the v1 fallback label for unrecognized direction codes. -/
inductive Flow where
  | consuming
  | producing
  | sign
  | unknown
deriving DecidableEq, Repr

/-! ## V5 variant: private state, options and results -/

/-- Per-channel slice of the V5 private state created by
pj1203aGetPrivateState: the buffered fields sign_x, power_x, current_x,
power_factor_x, timestamp_x, the last published signed power pub_power_x and
the single-zero flags zero_power_x and zero_current_x. -/
structure ChanState where
  sign : Option ℤ
  power : Option ℚ
  current : Option ℚ
  power_factor : Option ℚ
  timestamp : Option ℕ
  pub_power : Option ℚ
  zero_power : Option Bool
  zero_current : Option Bool
deriving DecidableEq, Repr

/-- The V5 private state: two channel slices plus the sequence tracking
fields last_seq and seq_inc. -/
structure Priv where
  a : ChanState
  b : ChanState
  last_seq : ℤ
  seq_inc : ℤ
deriving DecidableEq, Repr

/-- The freshly created channel slice: every field is null. -/
def initChan : ChanState :=
  { sign := none, power := none, current := none, power_factor := none,
    timestamp := none, pub_power := none, zero_power := none, zero_current := none }

/-- The freshly created private state of pj1203aGetPrivateState:
all fields null, last_seq initialized to the sentinel -99999, seq_inc 256. -/
def initPriv : Priv :=
  { a := initChan, b := initChan, last_seq := -99999, seq_inc := 256 }

/-- Select the slice of channel x. -/
def Priv.chan (p : Priv) : Chan → ChanState
  | Chan.a => p.a
  | Chan.b => p.b

/-- Replace the slice of channel x. -/
def Priv.setChan (p : Priv) : Chan → ChanState → Priv
  | Chan.a, c => { p with a := c }
  | Chan.b, c => { p with b := c }

/-- Per-channel slice of a V5 result record.  A field that is none is absent
from the published record (the V5 flush never publishes explicit nulls). -/
structure ChanResult where
  power : Option ℚ
  energy_flow : Option Flow
  timestamp : Option ℕ
  current : Option ℚ
  power_factor : Option ℚ
deriving DecidableEq, Repr

/-- A V5 result record assembled by the value converters. -/
structure Result where
  a : ChanResult
  b : ChanResult
  power_ab : Option ℚ
deriving DecidableEq, Repr

/-- The empty channel result: nothing published. -/
def emptyChanResult : ChanResult :=
  { power := none, energy_flow := none, timestamp := none, current := none,
    power_factor := none }

/-- The empty result record, corresponding to the literal object the
converters start from. -/
def emptyResult : Result :=
  { a := emptyChanResult, b := emptyChanResult, power_ab := none }

/-- Select the channel slice of a result record. -/
def Result.chan (r : Result) : Chan → ChanResult
  | Chan.a => r.a
  | Chan.b => r.b

/-- Replace the channel slice of a result record. -/
def Result.setChan (r : Result) : Chan → ChanResult → Result
  | Chan.a, c => { r with a := c }
  | Chan.b, c => { r with b := c }

/-- The V5 options bag: late_energy_flow_X, signed_power_X and
single_zero_remove, all defaulting to false. -/
structure Options where
  late_energy_flow_a : Bool
  late_energy_flow_b : Bool
  signed_power_a : Bool
  signed_power_b : Bool
  single_zero_remove : Bool
deriving DecidableEq, Repr

/-- All options at their default value false. -/
def optsDefault : Options :=
  { late_energy_flow_a := false, late_energy_flow_b := false,
    signed_power_a := false, signed_power_b := false, single_zero_remove := false }

/-- pj1203aGetLateEnergyFlow: read the late_energy_flow option of channel x. -/
def getLateEnergyFlow (o : Options) : Chan → Bool
  | Chan.a => o.late_energy_flow_a
  | Chan.b => o.late_energy_flow_b

/-- pj1203aGetSignedPower: read the signed_power option of channel x. -/
def getSignedPower (o : Options) : Chan → Bool
  | Chan.a => o.signed_power_a
  | Chan.b => o.signed_power_b

/-- JavaScript truthiness of a nullable boolean: only the value true is
truthy; null and false are falsy. -/
def truthy : Option Bool → Bool
  | some true => true
  | _ => false

/-- JavaScript Math.round on rationals: round half toward positive infinity. -/
def jsRound (q : ℚ) : ℤ := Int.floor (q + 1 / 2)

/-! ## V5 variant: recomputation and flushes -/

/-- pj1203aRecomputePowerAb: when the result publishes power_a or power_b,
record the corresponding signed power into pub_power_a or pub_power_b, and
when both are known set power_ab to their sum computed on the 10-scaled
integers (the options argument of the source is unused). -/
def recomputePowerAb (result : Result) (priv : Priv) (opts : Options) : Result × Priv :=
  let pubA : Option ℚ × Bool :=
    match result.a.power with
    | some p => (some (p * (if result.a.energy_flow = some Flow.producing then -1 else 1)), true)
    | none => (priv.a.pub_power, false)
  let pubB : Option ℚ × Bool :=
    match result.b.power with
    | some p => (some (p * (if result.b.energy_flow = some Flow.producing then -1 else 1)), true)
    | none => (priv.b.pub_power, false)
  let priv1 := { priv with a := { priv.a with pub_power := pubA.1 },
                           b := { priv.b with pub_power := pubB.1 } }
  let result1 :=
    if pubA.2 || pubB.2 then
      match pubA.1, pubB.1 with
      | some pa, some pb =>
          { result with power_ab := some (((jsRound (10 * pa + 10 * pb) : ℚ)) / 10) }
      | _, _ => result
    else result
  (result1, priv1)

/-- pj1203aFlushAll: read the four buffered fields of channel x, clear them
unconditionally, and when all four were present publish the channel record
(signed or unsigned according to the signed_power option), run the power_ab
recomputation and report true; otherwise publish nothing and report false. -/
def flushAll (result : Result) (x : Chan) (priv : Priv) (opts : Options) :
    Result × Priv × Bool :=
  let c := priv.chan x
  let priv1 := priv.setChan x
    { c with sign := none, power := none, current := none, power_factor := none }
  match c.sign, c.power, c.current, c.power_factor with
  | some s, some p, some cur, some pf =>
      let cr0 := result.chan x
      let cr1 :=
        if getSignedPower opts x then
          { cr0 with power := some ((s : ℚ) * p), energy_flow := some Flow.sign }
        else
          { cr0 with power := some p,
                     energy_flow := some (if 0 < s then Flow.consuming else Flow.producing) }
      let cr2 := { cr1 with timestamp := (priv1.chan x).timestamp,
                            current := some cur, power_factor := some pf }
      let rp := recomputePowerAb (result.setChan x cr2) priv1 opts
      (rp.1, rp.2, true)
  | _, _, _, _ => (result, priv1, false)

/-- pj1203aFlushZero: force the canonical zero snapshot (sign +1, power 0,
timestamp now, current 0, power factor 100) into the buffer of channel x and
attempt a flush. -/
def flushZero (result : Result) (x : Chan) (priv : Priv) (opts : Options) (now : ℕ) :
    Result × Priv × Bool :=
  let c := priv.chan x
  let priv1 := priv.setChan x
    { c with sign := some 1, power := some 0, timestamp := some now,
             current := some 0, power_factor := some 100 }
  flushAll result x priv1 opts

/-- pj1203aFlushNull: null the four buffered fields of channel x, set the
timestamp to now, and attempt a flush (which necessarily publishes nothing,
since the four fields are null). -/
def flushNull (result : Result) (x : Chan) (priv : Priv) (opts : Options) (now : ℕ) :
    Result × Priv × Bool :=
  let c := priv.chan x
  let priv1 := priv.setChan x
    { c with sign := none, power := none, current := none, power_factor := none,
             timestamp := some now }
  flushAll result x priv1 opts

/-! ## V5 variant: value converters -/

/-- pj1203aValueConverters.power(x).from: store v / 10 and the timestamp; on a
zero value run the one-shot null flush (when single_zero_remove is set and the
previous sample was not a zero) or the canonical zero flush, then set the
zero_power flag; on a nonzero value clear the zero_power flag. -/
def powerConv (x : Chan) (v : ℚ) (priv : Priv) (opts : Options) (now : ℕ) :
    Result × Priv :=
  let power_x := v / 10
  let c := priv.chan x
  let priv1 := priv.setChan x { c with power := some power_x, timestamp := some now }
  if v = 0 then
    let rpb :=
      if opts.single_zero_remove && !(truthy ((priv1.chan x).zero_power)) then
        flushNull emptyResult x priv1 opts now
      else
        flushZero emptyResult x priv1 opts now
    let c2 := rpb.2.1.chan x
    (rpb.1, rpb.2.1.setChan x { c2 with zero_power := some true })
  else
    let c1 := priv1.chan x
    (emptyResult, priv1.setChan x { c1 with zero_power := some false })

/-- pj1203aValueConverters.current(x).from: store v / 1000; on a zero value
run the one-shot null flush or the canonical zero flush, then set the
zero_current flag; on a nonzero value clear the zero_current flag. -/
def currentConv (x : Chan) (v : ℚ) (priv : Priv) (opts : Options) (now : ℕ) :
    Result × Priv :=
  let current_x := v / 1000
  let c := priv.chan x
  let priv1 := priv.setChan x { c with current := some current_x }
  if v = 0 then
    let rpb :=
      if opts.single_zero_remove && !(truthy ((priv1.chan x).zero_current)) then
        flushNull emptyResult x priv1 opts now
      else
        flushZero emptyResult x priv1 opts now
    let c2 := rpb.2.1.chan x
    (rpb.1, rpb.2.1.setChan x { c2 with zero_current := some true })
  else
    let c1 := priv1.chan x
    (emptyResult, priv1.setChan x { c1 with zero_current := some false })

/-- pj1203aValueConverters.power_factor(x).from: store the power factor and,
unless the late_energy_flow option delays publication, attempt a flush. -/
def powerFactorConv (x : Chan) (v : ℚ) (priv : Priv) (opts : Options) :
    Result × Priv :=
  let c := priv.chan x
  let priv1 := priv.setChan x { c with power_factor := some v }
  if getLateEnergyFlow opts x then (emptyResult, priv1)
  else
    let rpb := flushAll emptyResult x priv1 opts
    (rpb.1, rpb.2.1)

/-- The V5 direction-code resolution: raw code 1 means reverse (sign -1),
every other code is mapped to sign +1. -/
def energyFlowSignOf (v : ℤ) : ℤ := if v = 1 then -1 else 1

/-- pj1203aValueConverters.energy_flow(x).from: store the resolved sign and,
when the late_energy_flow option makes the direction the trigger field,
attempt a flush. -/
def energyFlowConv (x : Chan) (v : ℤ) (priv : Priv) (opts : Options) :
    Result × Priv :=
  let c := priv.chan x
  let priv1 := priv.setChan x { c with sign := some (energyFlowSignOf v) }
  if getLateEnergyFlow opts x then
    let rpb := flushAll emptyResult x priv1 opts
    (rpb.1, rpb.2.1)
  else (emptyResult, priv1)

/-- pj1203aValueConverters.power_ab().from: the received combined-total
datapoint is always discarded; the converter returns the empty record. -/
def powerAbConv (v : ℚ) : Result := emptyResult

/-! ## V5 variant: sequence tracking -/

/-- The JavaScript expression n and 0xffff for the integers reachable here:
the Euclidean remainder by 65536. -/
def and16 (n : ℤ) : ℤ := n % 65536

/-- The expected next sequence number (last_seq + seq_inc) masked to 16 bits,
as computed at the top of pj1203aFzDatapoints.convert. -/
def expectedSeq (priv : Priv) : ℤ := and16 (priv.last_seq + priv.seq_inc)

/-- The gap test of pj1203aFzDatapoints.convert: a missing or re-ordered
message is detected when the sequence number is neither the expected next
value nor a duplicate of the previous one. -/
def gapDetected (priv : Priv) (seq : ℤ) : Bool :=
  decide (seq ≠ expectedSeq priv) && decide (seq ≠ priv.last_seq)

/-- The gap branch body of pj1203aFzDatapoints.convert: clear all pending
attributes (sign, power, current, power_factor and the zero flags) of both
channels; pub_power and the timestamps are not touched. -/
def clearPending (priv : Priv) : Priv :=
  { priv with
      a := { priv.a with sign := none, power := none, current := none,
                         power_factor := none, zero_power := none, zero_current := none },
      b := { priv.b with sign := none, power := none, current := none,
                         power_factor := none, zero_power := none, zero_current := none } }

/-- The sequence-tracking prefix of pj1203aFzDatapoints.convert: run the gap
test, clear the pending attributes of both channels on a gap, and store the
newly observed sequence number unconditionally.  The datapoint itself is
processed afterwards on the returned state. -/
def fzTrackSeq (priv : Priv) (seq : ℤ) : Priv :=
  let priv1 := if gapDetected priv seq then clearPending priv else priv
  { priv1 with last_seq := seq }

/-- The three classes of the Sequence Tracker contract. -/
inductive SeqClass where
  | duplicate
  | inOrder
  | gap
deriving DecidableEq, Repr

/-- The classification induced by the tests of pj1203aFzDatapoints.convert:
duplicate when the sequence number repeats the previous one, in-order when it
is the expected next value, gap otherwise. -/
def classifySeq (priv : Priv) (seq : ℤ) : SeqClass :=
  if seq = priv.last_seq then SeqClass.duplicate
  else if seq = expectedSeq priv then SeqClass.inOrder
  else SeqClass.gap

/-! ## v1 variant (file PJ-1203A.js, first converter)

The v1 variant keeps the direction as a label (energy_flow_x), has a
publishing_mode option, a missing_data_behavior disposition, a per-channel
16-bit update counter, and a flush routine whose read-then-clear is gated by
an explicit clear flag.  Its datapoint table maps datapoint 115 directly to
the attribute power_ab through the library scaling converter divideBy10. -/

/-- The v1 publishing_mode option values. -/
inductive PubMode where
  | immediate
  | atPowerFactor
  | atEnergyFlow
deriving DecidableEq, Repr

/-- The v1 missing_data_behavior option values. -/
inductive MissingDataBehavior where
  | keepMissing
  | keepAll
  | nullifyMissing
  | nullifyAll
deriving DecidableEq, Repr

/-- The v1 options bag. -/
structure V1Options where
  publishing_mode : PubMode
  missing_message_detection : Bool
  missing_data_behavior : MissingDataBehavior
deriving DecidableEq, Repr

/-- The v1 defaults: immediate publishing, detection off, keep_all. -/
def v1OptsDefault : V1Options :=
  { publishing_mode := PubMode.immediate, missing_message_detection := false,
    missing_data_behavior := MissingDataBehavior.keepAll }

/-- Per-channel slice of the v1 private state of PJ1203A_providePrivateState:
the buffered fields energy_flow_x, power_x, current_x, power_factor_x and the
wrapping update counter counter_x. -/
structure V1Chan where
  energy_flow : Option Flow
  power : Option ℚ
  current : Option ℚ
  power_factor : Option ℚ
  counter : ℕ
deriving DecidableEq, Repr

/-- The v1 private state. -/
structure V1Priv where
  a : V1Chan
  b : V1Chan
  last_seq : ℤ
deriving DecidableEq, Repr

/-- The freshly created v1 channel slice. -/
def v1InitChan : V1Chan :=
  { energy_flow := none, power := none, current := none, power_factor := none,
    counter := 0 }

/-- The freshly created v1 private state (last_seq sentinel -99999). -/
def v1InitPriv : V1Priv :=
  { a := v1InitChan, b := v1InitChan, last_seq := -99999 }

/-- Select the v1 slice of channel x. -/
def V1Priv.chan (p : V1Priv) : Chan → V1Chan
  | Chan.a => p.a
  | Chan.b => p.b

/-- Replace the v1 slice of channel x. -/
def V1Priv.setChan (p : V1Priv) : Chan → V1Chan → V1Priv
  | Chan.a, c => { p with a := c }
  | Chan.b, c => { p with b := c }

/-- Per-channel slice of a v1 result record.  The outer Option is presence in
the sparse record; the inner Option is an explicitly published null (the
nullify dispositions publish nulls). -/
structure V1ChanResult where
  energy_flow : Option (Option Flow)
  power : Option (Option ℚ)
  current : Option (Option ℚ)
  power_factor : Option (Option ℚ)
  counter : Option ℕ
deriving DecidableEq, Repr

/-- A v1 result record. -/
structure V1Result where
  a : V1ChanResult
  b : V1ChanResult
  power_ab : Option ℚ
deriving DecidableEq, Repr

/-- The empty v1 channel result. -/
def v1EmptyChanResult : V1ChanResult :=
  { energy_flow := none, power := none, current := none, power_factor := none,
    counter := none }

/-- The empty v1 result record. -/
def v1EmptyResult : V1Result :=
  { a := v1EmptyChanResult, b := v1EmptyChanResult, power_ab := none }

/-- Select the channel slice of a v1 result record. -/
def V1Result.chan (r : V1Result) : Chan → V1ChanResult
  | Chan.a => r.a
  | Chan.b => r.b

/-- Replace the channel slice of a v1 result record. -/
def V1Result.setChan (r : V1Result) : Chan → V1ChanResult → V1Result
  | Chan.a, c => { r with a := c }
  | Chan.b, c => { r with b := c }

/-- PJ1203A_next_seq: advance the wrapping 16-bit update counter of channel x
and publish it. -/
def v1NextSeq (result : V1Result) (priv : V1Priv) (x : Chan) : V1Result × V1Priv :=
  let c := (priv.chan x).counter
  let c1 := (c + 1) % 65536
  (result.setChan x { result.chan x with counter := some c1 },
   priv.setChan x { priv.chan x with counter := c1 })

/-- Publish a buffered field when present, keep the previous published value
otherwise (the keep_missing disposition). -/
def emitIfPresent {α : Type} (v : Option α) (old : Option (Option α)) :
    Option (Option α) :=
  match v with
  | some w => some (some w)
  | none => old

/-- PJ1203A_flush_all (v1): read the four buffered fields of channel x, clear
them only when the clear flag is set, publish the complete set when all four
are present, and otherwise apply the configured missing_data_behavior; the
update counter is advanced and published in every case. -/
def v1FlushAll (result : V1Result) (x : Chan) (priv : V1Priv) (opts : V1Options)
    (clear : Bool) : V1Result × V1Priv :=
  let c := priv.chan x
  let priv1 :=
    if clear then
      priv.setChan x
        { c with energy_flow := none, power := none, current := none,
                 power_factor := none }
    else priv
  match c.energy_flow, c.power, c.current, c.power_factor with
  | some ef, some p, some cur, some pf =>
      let cr := { result.chan x with
                    energy_flow := some (some ef), power := some (some p),
                    current := some (some cur), power_factor := some (some pf) }
      v1NextSeq (result.setChan x cr) priv1 x
  | _, _, _, _ =>
      let cr0 := result.chan x
      let cr :=
        match opts.missing_data_behavior with
        | MissingDataBehavior.keepMissing =>
            { cr0 with energy_flow := emitIfPresent c.energy_flow cr0.energy_flow,
                       power := emitIfPresent c.power cr0.power,
                       current := emitIfPresent c.current cr0.current,
                       power_factor := emitIfPresent c.power_factor cr0.power_factor }
        | MissingDataBehavior.keepAll => cr0
        | MissingDataBehavior.nullifyMissing =>
            { cr0 with energy_flow := some c.energy_flow, power := some c.power,
                       current := some c.current, power_factor := some c.power_factor }
        | MissingDataBehavior.nullifyAll =>
            { cr0 with energy_flow := some none, power := some none,
                       current := some none, power_factor := some none }
      v1NextSeq (result.setChan x cr) priv1 x

/-- PJ1203A_flush_zero (v1): force the canonical zero snapshot into the
buffer of channel x and attempt a flush WITHOUT the clear flag. -/
def v1FlushZero (result : V1Result) (x : Chan) (priv : V1Priv) (opts : V1Options) :
    V1Result × V1Priv :=
  let c := priv.chan x
  let priv1 := priv.setChan x
    { c with energy_flow := some Flow.consuming, power := some 0,
             current := some 0, power_factor := some 100 }
  v1FlushAll result x priv1 opts false

/-- The v1 direction-code resolution of PJ1203A_valueConverters.energy_flow:
0 means consuming, 1 means producing, anything else resolves to the explicit
unknown label. -/
def v1ResolveFlow (v : ℤ) : Flow :=
  if v = 0 then Flow.consuming
  else if v = 1 then Flow.producing
  else Flow.unknown

/-- PJ1203A_valueConverters.energy_flow(x).from (v1): resolve and store the
flow label; publish it at once in immediate mode, or trigger a clearing flush
in at_energy_flow mode. -/
def v1EnergyFlowConv (x : Chan) (v : ℤ) (priv : V1Priv) (opts : V1Options) :
    V1Result × V1Priv :=
  let flow := v1ResolveFlow v
  let priv1 := priv.setChan x { priv.chan x with energy_flow := some flow }
  match opts.publishing_mode with
  | PubMode.immediate =>
      let r := v1EmptyResult.setChan x
        { v1EmptyChanResult with energy_flow := some (some flow) }
      v1NextSeq r priv1 x
  | PubMode.atEnergyFlow => v1FlushAll v1EmptyResult x priv1 opts true
  | PubMode.atPowerFactor => (v1EmptyResult, priv1)

/-- Modelled from the spec: the unit-scaling converter of the static
datapoint table (spec section 4.2, an external collaborator of the core).
The library converter divideBy10 publishes the raw value scaled by 1/10 under
the attribute name given in the table row. -/
def divideBy10From (v : ℚ) : ℚ := v / 10

/-- The v1 datapoint-table row [115, power_ab, divideBy10]: the received
combined-total datapoint is published directly as power_ab after scaling. -/
def v1Dp115PowerAb (v : ℚ) : V1Result :=
  { v1EmptyResult with power_ab := some (divideBy10From v) }

/-! ## Auxiliary definitions for the theorems and witnesses -/

/-- A rational that is an integer multiple of the 0.1 publication resolution. -/
def Tenth (q : ℚ) : Prop := ∃ n : ℤ, q = n / 10

/-- Concrete operands of the C5 witness: channel a just emitted 79.8
consuming. -/
def wRes : Result :=
  { emptyResult with
      a := { emptyChanResult with
               power := some (798 / 10), energy_flow := some Flow.consuming } }

/-- Concrete state of the C5 witness: channel b last published -37.1. -/
def wPriv : Priv :=
  { initPriv with b := { initChan with pub_power := some (-371 / 10) } }

/-- Concrete buffer of the C6 witness: sign +1 (direction code 0), power 15
(raw 150 scaled by 1/10), current 1.5, power factor 95. -/
def wPriv6 : Priv :=
  { initPriv with
      a := { initChan with
               sign := some 1, power := some 15,
               current := some (3 / 2), power_factor := some 95 } }

/-- Options with signed-power mode on channel a. -/
def oSigned : Options := { optsDefault with signed_power_a := true }

/-- Options with the one-shot zero suppression enabled. -/
def oZero : Options := { optsDefault with single_zero_remove := true }

/-! ## Helper lemmas -/

@[simp]
theorem privChan_setChan (p : Priv) (x : Chan) (c : ChanState) :
    (p.setChan x c).chan x = c := by
  cases x <;> rfl

@[simp]
theorem resultChan_setChan (r : Result) (x : Chan) (c : ChanResult) :
    (r.setChan x c).chan x = c := by
  cases x <;> rfl

@[simp]
theorem v1PrivChan_setChan (p : V1Priv) (x : Chan) (c : V1Chan) :
    (p.setChan x c).chan x = c := by
  cases x <;> rfl

@[simp]
theorem v1ResultChan_setChan (r : V1Result) (x : Chan) (c : V1ChanResult) :
    (r.setChan x c).chan x = c := by
  cases x <;> rfl

/-- The recomputation never touches the published channel fields. -/
theorem recompute_fst_chan (r : Result) (p : Priv) (o : Options) :
    ((recomputePowerAb r p o).1).a = r.a ∧ ((recomputePowerAb r p o).1).b = r.b := by
  unfold recomputePowerAb
  rcases hra : r.a.power with _ | pa <;> rcases hrb : r.b.power with _ | pb <;>
    rcases hpa : p.a.pub_power with _ | qa <;> rcases hpb : p.b.pub_power with _ | qb <;>
      simp [hra, hrb, hpa, hpb]

/-- The recomputation touches only the pub_power fields of the state. -/
theorem recompute_snd_a_buffered (r : Result) (p : Priv) (o : Options) :
    ((recomputePowerAb r p o).2).a.sign = p.a.sign ∧
    ((recomputePowerAb r p o).2).a.power = p.a.power ∧
    ((recomputePowerAb r p o).2).a.current = p.a.current ∧
    ((recomputePowerAb r p o).2).a.power_factor = p.a.power_factor ∧
    ((recomputePowerAb r p o).2).a.timestamp = p.a.timestamp ∧
    ((recomputePowerAb r p o).2).a.zero_power = p.a.zero_power ∧
    ((recomputePowerAb r p o).2).a.zero_current = p.a.zero_current :=
  ⟨rfl, rfl, rfl, rfl, rfl, rfl, rfl⟩

/-- The recomputation touches only the pub_power fields of the state. -/
theorem recompute_snd_b_buffered (r : Result) (p : Priv) (o : Options) :
    ((recomputePowerAb r p o).2).b.sign = p.b.sign ∧
    ((recomputePowerAb r p o).2).b.power = p.b.power ∧
    ((recomputePowerAb r p o).2).b.current = p.b.current ∧
    ((recomputePowerAb r p o).2).b.power_factor = p.b.power_factor ∧
    ((recomputePowerAb r p o).2).b.timestamp = p.b.timestamp ∧
    ((recomputePowerAb r p o).2).b.zero_power = p.b.zero_power ∧
    ((recomputePowerAb r p o).2).b.zero_current = p.b.zero_current :=
  ⟨rfl, rfl, rfl, rfl, rfl, rfl, rfl⟩

/-- pj1203aFlushAll on a complete buffer publishes the four fields of the
channel, signed or unsigned according to the option, reports success, and
copies the buffered timestamp. -/
theorem flushAll_complete (r : Result) (x : Chan) (p : Priv) (o : Options)
    (s : ℤ) (pw cur pf : ℚ)
    (hs : (p.chan x).sign = some s) (hp : (p.chan x).power = some pw)
    (hc : (p.chan x).current = some cur) (hf : (p.chan x).power_factor = some pf) :
    (flushAll r x p o).2.2 = true ∧
    ((flushAll r x p o).1.chan x).power =
      some (if getSignedPower o x then (s : ℚ) * pw else pw) ∧
    ((flushAll r x p o).1.chan x).energy_flow =
      some (if getSignedPower o x then Flow.sign
            else if 0 < s then Flow.consuming else Flow.producing) ∧
    ((flushAll r x p o).1.chan x).current = some cur ∧
    ((flushAll r x p o).1.chan x).power_factor = some pf ∧
    ((flushAll r x p o).1.chan x).timestamp = (p.chan x).timestamp := by
  cases x <;>
    simp only [Priv.chan] at hs hp hc hf <;>
    simp [flushAll, Priv.chan, Priv.setChan, Result.chan, Result.setChan,
          hs, hp, hc, hf, recompute_fst_chan] <;>
    split <;> simp

/-- pj1203aFlushAll on a buffer with no sign publishes nothing and fails. -/
theorem flushAll_noSign (r : Result) (x : Chan) (p : Priv) (o : Options)
    (hs : (p.chan x).sign = none) :
    (flushAll r x p o).1 = r ∧ (flushAll r x p o).2.2 = false := by
  cases x <;> simp only [Priv.chan] at hs <;> simp [flushAll, Priv.chan, hs]

/-- pj1203aFlushAll always clears the four buffered fields of the flushed
channel. -/
theorem flushAll_clears (r : Result) (x : Chan) (p : Priv) (o : Options) :
    (((flushAll r x p o).2.1).chan x).sign = none ∧
    (((flushAll r x p o).2.1).chan x).power = none ∧
    (((flushAll r x p o).2.1).chan x).current = none ∧
    (((flushAll r x p o).2.1).chan x).power_factor = none := by
  cases x <;>
    rcases p with ⟨ca, cb, ls, si⟩ <;>
    [rcases ca with ⟨s, pw, cu, pf, ts, pub, zp, zc⟩;
     rcases cb with ⟨s, pw, cu, pf, ts, pub, zp, zc⟩] <;>
    cases s <;> cases pw <;> cases cu <;> cases pf <;>
      simp [flushAll, Priv.chan, Priv.setChan,
            recompute_snd_a_buffered, recompute_snd_b_buffered]

/-- pj1203aFlushZero publishes the canonical zero snapshot (in unsigned
mode): power 0, energy flow consuming, current 0, power factor 100, and the
timestamp now. -/
theorem flushZero_emits (x : Chan) (p : Priv) (o : Options) (now : ℕ)
    (hG : getSignedPower o x = false) :
    ((flushZero emptyResult x p o now).1.chan x).power = some 0 ∧
    ((flushZero emptyResult x p o now).1.chan x).energy_flow = some Flow.consuming ∧
    ((flushZero emptyResult x p o now).1.chan x).current = some 0 ∧
    ((flushZero emptyResult x p o now).1.chan x).power_factor = some 100 ∧
    ((flushZero emptyResult x p o now).1.chan x).timestamp = some now ∧
    (flushZero emptyResult x p o now).2.2 = true := by
  cases x <;>
    simp only [getSignedPower] at hG <;>
    simp [flushZero, flushAll, getSignedPower, Priv.chan, Priv.setChan,
          Result.chan, Result.setChan, emptyResult, emptyChanResult, hG,
          recompute_fst_chan]

/-- A nullable boolean other than true is falsy. -/
theorem truthy_ne_true (o : Option Bool) (h : o ≠ some true) : truthy o = false := by
  rcases o with _ | b
  · rfl
  · cases b
    · rfl
    · exact absurd rfl h

/-- A zero power datapoint received while the zero_power flag is set runs the
canonical zero flush (one-shot suppression does not fire twice in a row). -/
theorem powerConv_zero_flagSet (x : Chan) (p : Priv) (opts : Options) (n2 : ℕ)
    (hz2 : (p.chan x).zero_power = some true) (hs : getSignedPower opts x = false) :
    ((powerConv x 0 p opts n2).1.chan x).power = some 0 ∧
    ((powerConv x 0 p opts n2).1.chan x).energy_flow = some Flow.consuming ∧
    ((powerConv x 0 p opts n2).1.chan x).current = some 0 ∧
    ((powerConv x 0 p opts n2).1.chan x).power_factor = some 100 := by
  simp [powerConv, hz2, truthy]
  obtain ⟨h1, h2, h3, h4, h5, h6⟩ := flushZero_emits x
    (p.setChan x { p.chan x with
                     power := some 0, timestamp := some n2,
                     zero_power := some true }) opts n2 hs
  exact ⟨h1, h2, h3, h4⟩

/-! ## Claim C1: zero-shortcut completeness -/

/-- C1.  For every channel x and every prior buffer state, processing a
power(x, 0) or current(x, 0) datapoint with zero-suppression disabled yields
a complete flush for channel x whose record carries sign +1 (energy flow
consuming in unsigned mode), power 0, current 0 and power factor 100. -/
theorem zero_shortcut_complete (x : Chan) (priv : Priv) (opts : Options) (now : ℕ)
    (hz : opts.single_zero_remove = false) (hs : getSignedPower opts x = false) :
    (((powerConv x 0 priv opts now).1.chan x).power = some 0 ∧
     ((powerConv x 0 priv opts now).1.chan x).energy_flow = some Flow.consuming ∧
     ((powerConv x 0 priv opts now).1.chan x).current = some 0 ∧
     ((powerConv x 0 priv opts now).1.chan x).power_factor = some 100 ∧
     ((powerConv x 0 priv opts now).1.chan x).timestamp = some now) ∧
    (((currentConv x 0 priv opts now).1.chan x).power = some 0 ∧
     ((currentConv x 0 priv opts now).1.chan x).energy_flow = some Flow.consuming ∧
     ((currentConv x 0 priv opts now).1.chan x).current = some 0 ∧
     ((currentConv x 0 priv opts now).1.chan x).power_factor = some 100 ∧
     ((currentConv x 0 priv opts now).1.chan x).timestamp = some now) := by
  constructor
  · simp [powerConv, hz]
    obtain ⟨h1, h2, h3, h4, h5, h6⟩ := flushZero_emits x
      (priv.setChan x { priv.chan x with power := some 0, timestamp := some now })
      opts now hs
    exact ⟨h1, h2, h3, h4, h5⟩
  · simp [currentConv, hz]
    obtain ⟨h1, h2, h3, h4, h5, h6⟩ := flushZero_emits x
      (priv.setChan x { priv.chan x with current := some 0 })
      opts now hs
    exact ⟨h1, h2, h3, h4, h5⟩

/-- Witness for C1 at channel a, the fresh state and default options. -/
theorem zero_shortcut_complete_witness :
    (optsDefault.single_zero_remove = false ∧
     getSignedPower optsDefault Chan.a = false) ∧
    ((((powerConv Chan.a 0 initPriv optsDefault 5).1.chan Chan.a).power = some 0 ∧
      ((powerConv Chan.a 0 initPriv optsDefault 5).1.chan Chan.a).energy_flow = some Flow.consuming ∧
      ((powerConv Chan.a 0 initPriv optsDefault 5).1.chan Chan.a).current = some 0 ∧
      ((powerConv Chan.a 0 initPriv optsDefault 5).1.chan Chan.a).power_factor = some 100 ∧
      ((powerConv Chan.a 0 initPriv optsDefault 5).1.chan Chan.a).timestamp = some 5) ∧
     (((currentConv Chan.a 0 initPriv optsDefault 5).1.chan Chan.a).power = some 0 ∧
      ((currentConv Chan.a 0 initPriv optsDefault 5).1.chan Chan.a).energy_flow = some Flow.consuming ∧
      ((currentConv Chan.a 0 initPriv optsDefault 5).1.chan Chan.a).current = some 0 ∧
      ((currentConv Chan.a 0 initPriv optsDefault 5).1.chan Chan.a).power_factor = some 100 ∧
      ((currentConv Chan.a 0 initPriv optsDefault 5).1.chan Chan.a).timestamp = some 5)) :=
  ⟨⟨rfl, rfl⟩, zero_shortcut_complete Chan.a initPriv optsDefault 5 rfl rfl⟩

/-! ## Claim C2: sequence tracker classification -/

/-- C2.  For every device state with the observed increment 256 and every
incoming sequence number, the tracker classifies the message as duplicate
exactly when it repeats last_seq, as in-order exactly when it equals
(last_seq + seq_inc) mod 65536, and as gap otherwise (the gap test of the
source), and after processing any message last_seq equals the newly observed
sequence number. -/
theorem seq_tracker_classification (priv : Priv) (seq : ℤ)
    (hinc : priv.seq_inc = 256) :
    (classifySeq priv seq = SeqClass.duplicate ↔ seq = priv.last_seq) ∧
    (classifySeq priv seq = SeqClass.inOrder ↔ seq = expectedSeq priv) ∧
    (classifySeq priv seq = SeqClass.gap ↔ gapDetected priv seq = true) ∧
    (fzTrackSeq priv seq).last_seq = seq := by
  have hne : expectedSeq priv ≠ priv.last_seq := by
    simp only [expectedSeq, and16, hinc]
    omega
  refine ⟨?_, ?_, ?_, rfl⟩ <;>
    by_cases hd : seq = priv.last_seq <;> by_cases he : seq = expectedSeq priv <;>
      simp_all [classifySeq, gapDetected]

/-- Witness for C2 at the fresh state and sequence number 5. -/
theorem seq_tracker_classification_witness :
    initPriv.seq_inc = 256 ∧
    ((classifySeq initPriv 5 = SeqClass.duplicate ↔ (5 : ℤ) = initPriv.last_seq) ∧
     (classifySeq initPriv 5 = SeqClass.inOrder ↔ (5 : ℤ) = expectedSeq initPriv) ∧
     (classifySeq initPriv 5 = SeqClass.gap ↔ gapDetected initPriv 5 = true) ∧
     (fzTrackSeq initPriv 5).last_seq = 5) :=
  ⟨rfl, seq_tracker_classification initPriv 5 rfl⟩

/-! ## Claim C4: a gap clears both channels but not the published powers -/

/-- C4.  Whenever the gap test fires, the sequence-tracking prefix clears the
buffered fields sign, power, current and power_factor of BOTH channels (and
re-arms the zero flags), while pub_power_a and pub_power_b are left
unchanged; last_seq is set to the newly observed sequence number. -/
theorem gap_clears_both_channels (priv : Priv) (seq : ℤ)
    (h : gapDetected priv seq = true) :
    (fzTrackSeq priv seq).a.sign = none ∧
    (fzTrackSeq priv seq).a.power = none ∧
    (fzTrackSeq priv seq).a.current = none ∧
    (fzTrackSeq priv seq).a.power_factor = none ∧
    (fzTrackSeq priv seq).b.sign = none ∧
    (fzTrackSeq priv seq).b.power = none ∧
    (fzTrackSeq priv seq).b.current = none ∧
    (fzTrackSeq priv seq).b.power_factor = none ∧
    (fzTrackSeq priv seq).a.pub_power = priv.a.pub_power ∧
    (fzTrackSeq priv seq).b.pub_power = priv.b.pub_power ∧
    (fzTrackSeq priv seq).last_seq = seq := by
  simp [fzTrackSeq, clearPending, h]

/-- Witness for C4: the fresh state and sequence number 0 (a gap there). -/
theorem gap_clears_both_channels_witness :
    gapDetected initPriv 0 = true ∧
    ((fzTrackSeq initPriv 0).a.sign = none ∧
     (fzTrackSeq initPriv 0).a.power = none ∧
     (fzTrackSeq initPriv 0).a.current = none ∧
     (fzTrackSeq initPriv 0).a.power_factor = none ∧
     (fzTrackSeq initPriv 0).b.sign = none ∧
     (fzTrackSeq initPriv 0).b.power = none ∧
     (fzTrackSeq initPriv 0).b.current = none ∧
     (fzTrackSeq initPriv 0).b.power_factor = none ∧
     (fzTrackSeq initPriv 0).a.pub_power = initPriv.a.pub_power ∧
     (fzTrackSeq initPriv 0).b.pub_power = initPriv.b.pub_power ∧
     (fzTrackSeq initPriv 0).last_seq = 0) :=
  ⟨by decide, gap_clears_both_channels initPriv 0 (by decide)⟩

/-! ## Claim C3: at-most-once consumption -/

/-- C3 counterexample.  The claim quantifies over ANY flush attempt, but the
v1 flush clears the buffer only when its clear flag is set, and the v1
zero-shortcut PJ1203A_flush_zero invokes it with clear false: immediately
after that flush attempt the buffered power of channel a still reads 0 (not
empty), and a second flush attempt with no intervening field arrivals
re-emits the same value. -/
theorem flush_clear_counterexample :
    ((v1FlushZero v1EmptyResult Chan.a v1InitPriv v1OptsDefault).2.a.power = some 0 ∧
     (v1FlushZero v1EmptyResult Chan.a v1InitPriv v1OptsDefault).2.a.energy_flow =
       some Flow.consuming) ∧
    (v1FlushAll v1EmptyResult Chan.a
        (v1FlushZero v1EmptyResult Chan.a v1InitPriv v1OptsDefault).2
        v1OptsDefault true).1.a.power = some (some 0) := by
  exact ⟨⟨rfl, rfl⟩, rfl⟩

/-- C3 (amended).  For the flush routine of the dominant variant
(pj1203aFlushAll, whose read-then-clear is unconditional): immediately after
any flush attempt the four buffered fields of the flushed channel read as
empty, and a second flush attempt with no intervening field arrivals emits
no field values. -/
theorem flush_at_most_once (result : Result) (x : Chan) (priv : Priv) (opts : Options) :
    (((flushAll result x priv opts).2.1).chan x).sign = none ∧
    (((flushAll result x priv opts).2.1).chan x).power = none ∧
    (((flushAll result x priv opts).2.1).chan x).current = none ∧
    (((flushAll result x priv opts).2.1).chan x).power_factor = none ∧
    (flushAll emptyResult x ((flushAll result x priv opts).2.1) opts).1 = emptyResult ∧
    (flushAll emptyResult x ((flushAll result x priv opts).2.1) opts).2.2 = false := by
  obtain ⟨h1, h2, h3, h4⟩ := flushAll_clears result x priv opts
  obtain ⟨h5, h6⟩ := flushAll_noSign emptyResult x ((flushAll result x priv opts).2.1) opts h1
  exact ⟨h1, h2, h3, h4, h5, h6⟩

/-! ## Claim C5: exact combined-total recomputation -/

/-- JavaScript Math.round is the identity on integers. -/
theorem jsRound_intCast (n : ℤ) : jsRound ((n : ℚ)) = n := by
  unfold jsRound
  rw [add_comm, Int.floor_add_int]
  norm_num

/-- The scale-sum-round-descale computation is the exact sum on multiples of
the 0.1 resolution. -/
theorem tenth_round_exact (pa pb : ℚ) (ha : Tenth pa) (hb : Tenth pb) :
    ((jsRound (10 * pa + 10 * pb) : ℚ)) / 10 = pa + pb := by
  obtain ⟨m, rfl⟩ := ha
  obtain ⟨n, rfl⟩ := hb
  have hsum : 10 * ((m : ℚ) / 10) + 10 * ((n : ℚ) / 10) = ((m + n : ℤ) : ℚ) := by
    push_cast
    ring
  rw [hsum, jsRound_intCast]
  push_cast
  ring

/-- C5.  Whenever the recomputation publishes a combined total (some channel
power was just emitted and both pub_power values are known), the published
power_ab equals the exact arithmetic sum of the two most recently emitted
signed powers, provided both are multiples of the 0.1 resolution. -/
theorem recompute_exact_sum (result : Result) (priv : Priv) (opts : Options)
    (pa pb : ℚ)
    (hmod : result.a.power ≠ none ∨ result.b.power ≠ none)
    (ha : ((recomputePowerAb result priv opts).2).a.pub_power = some pa)
    (hb : ((recomputePowerAb result priv opts).2).b.pub_power = some pb)
    (hta : Tenth pa) (htb : Tenth pb) :
    (recomputePowerAb result priv opts).1.power_ab = some (pa + pb) := by
  rcases hra : result.a.power with _ | qa <;> rcases hrb : result.b.power with _ | qb <;>
    simp only [recomputePowerAb, hra, hrb] at ha hb ⊢
  · simp [hra, hrb] at hmod
  all_goals simp_all [tenth_round_exact pa pb hta htb]

/-- Witness for C5: 79.8 + (-37.1) is published as exactly 42.7. -/
theorem recompute_exact_sum_witness :
    (wRes.a.power ≠ none ∨ wRes.b.power ≠ none) ∧
    ((recomputePowerAb wRes wPriv optsDefault).2).a.pub_power = some (798 / 10) ∧
    ((recomputePowerAb wRes wPriv optsDefault).2).b.pub_power = some (-371 / 10) ∧
    Tenth (798 / 10) ∧ Tenth (-371 / 10) ∧
    (recomputePowerAb wRes wPriv optsDefault).1.power_ab = some (798 / 10 + -371 / 10) ∧
    (recomputePowerAb wRes wPriv optsDefault).1.power_ab = some (427 / 10) := by
  have hm : wRes.a.power ≠ none ∨ wRes.b.power ≠ none :=
    Or.inl (by simp [wRes, emptyResult, emptyChanResult])
  have ha : ((recomputePowerAb wRes wPriv optsDefault).2).a.pub_power = some (798 / 10) := by
    simp [recomputePowerAb, wRes, wPriv, emptyResult, emptyChanResult, initPriv, initChan]
  have hb : ((recomputePowerAb wRes wPriv optsDefault).2).b.pub_power = some (-371 / 10) := by
    simp [recomputePowerAb, wRes, wPriv, emptyResult, emptyChanResult, initPriv, initChan]
  have h := recompute_exact_sum wRes wPriv optsDefault (798 / 10) (-371 / 10)
    hm ha hb ⟨798, by norm_num⟩ ⟨-371, by norm_num⟩
  refine ⟨hm, ha, hb, ⟨798, by norm_num⟩, ⟨-371, by norm_num⟩, h, ?_⟩
  rw [h]
  norm_num

/-! ## Claim C6: sign resolution round-trip -/

/-- C6.  For a complete buffered field set, a flush in unsigned mode emits
the power magnitude unchanged with the label consuming when the sign is
positive and producing otherwise, and a flush in signed mode emits the
magnitude times the sign with the fixed label sign; the direction-code
resolution maps code 0 to sign +1 and code 1 to sign -1 (so code 0 with
magnitude 150 scaled by 1/10 yields 15.0 consuming unsigned and 15.0 sign
signed, and code 1 yields -15.0 sign signed). -/
theorem sign_resolution_roundtrip (x : Chan) (priv : Priv) (o1 o2 : Options)
    (s : ℤ) (pw cur pf : ℚ)
    (hsg : (priv.chan x).sign = some s) (hp : (priv.chan x).power = some pw)
    (hc : (priv.chan x).current = some cur) (hf : (priv.chan x).power_factor = some pf)
    (h1 : getSignedPower o1 x = false) (h2 : getSignedPower o2 x = true) :
    (((flushAll emptyResult x priv o1).1.chan x).power = some pw ∧
     ((flushAll emptyResult x priv o1).1.chan x).energy_flow =
       some (if 0 < s then Flow.consuming else Flow.producing) ∧
     (flushAll emptyResult x priv o1).2.2 = true) ∧
    (((flushAll emptyResult x priv o2).1.chan x).power = some ((s : ℚ) * pw) ∧
     ((flushAll emptyResult x priv o2).1.chan x).energy_flow = some Flow.sign ∧
     (flushAll emptyResult x priv o2).2.2 = true) ∧
    (energyFlowSignOf 0 = 1 ∧ energyFlowSignOf 1 = -1) := by
  obtain ⟨a1, a2, a3, a4, a5, a6⟩ :=
    flushAll_complete emptyResult x priv o1 s pw cur pf hsg hp hc hf
  obtain ⟨b1, b2, b3, b4, b5, b6⟩ :=
    flushAll_complete emptyResult x priv o2 s pw cur pf hsg hp hc hf
  rw [h1] at a2 a3
  rw [h2] at b2 b3
  simp only [Bool.false_eq_true, if_false, if_true] at a2 a3 b2 b3
  exact ⟨⟨a2, a3, a1⟩, ⟨b2, b3, b1⟩, rfl, rfl⟩

/-- Witness for C6 at the concrete buffer of the spec example. -/
theorem sign_resolution_roundtrip_witness :
    ((wPriv6.chan Chan.a).sign = some 1 ∧ (wPriv6.chan Chan.a).power = some 15 ∧
     (wPriv6.chan Chan.a).current = some (3 / 2) ∧
     (wPriv6.chan Chan.a).power_factor = some 95 ∧
     getSignedPower optsDefault Chan.a = false ∧ getSignedPower oSigned Chan.a = true) ∧
    ((((flushAll emptyResult Chan.a wPriv6 optsDefault).1.chan Chan.a).power = some 15 ∧
      ((flushAll emptyResult Chan.a wPriv6 optsDefault).1.chan Chan.a).energy_flow =
        some (if 0 < (1 : ℤ) then Flow.consuming else Flow.producing) ∧
      (flushAll emptyResult Chan.a wPriv6 optsDefault).2.2 = true) ∧
     (((flushAll emptyResult Chan.a wPriv6 oSigned).1.chan Chan.a).power =
        some (((1 : ℤ) : ℚ) * 15) ∧
      ((flushAll emptyResult Chan.a wPriv6 oSigned).1.chan Chan.a).energy_flow =
        some Flow.sign ∧
      (flushAll emptyResult Chan.a wPriv6 oSigned).2.2 = true) ∧
     (energyFlowSignOf 0 = 1 ∧ energyFlowSignOf 1 = -1)) :=
  ⟨⟨rfl, rfl, rfl, rfl, rfl, rfl⟩,
   sign_resolution_roundtrip Chan.a wPriv6 optsDefault oSigned 1 15 (3 / 2) 95
     rfl rfl rfl rfl rfl rfl⟩

/-! ## Claim C7: one-shot zero suppression -/

/-- C7.  With single_zero_remove enabled: the first zero power datapoint
since the last nonzero one triggers the nullified flush (all four buffered
fields nulled, channel timestamp set to now, nothing published in place of
the canonical zero snapshot) and sets the zero_power flag; a consecutive
second zero reverts to the canonical zero snapshot; a zero current datapoint
behaves symmetrically on the zero_current flag; and a nonzero power value
clears the zero_power flag. -/
theorem single_zero_suppression (x : Chan) (priv : Priv) (opts : Options)
    (now n2 : ℕ) (v : ℚ)
    (hz : opts.single_zero_remove = true)
    (hflag : (priv.chan x).zero_power ≠ some true)
    (hflagc : (priv.chan x).zero_current ≠ some true)
    (hs : getSignedPower opts x = false)
    (hv : v ≠ 0) :
    ((powerConv x 0 priv opts now).1 = emptyResult ∧
     ((powerConv x 0 priv opts now).2.chan x).sign = none ∧
     ((powerConv x 0 priv opts now).2.chan x).power = none ∧
     ((powerConv x 0 priv opts now).2.chan x).current = none ∧
     ((powerConv x 0 priv opts now).2.chan x).power_factor = none ∧
     ((powerConv x 0 priv opts now).2.chan x).timestamp = some now ∧
     ((powerConv x 0 priv opts now).2.chan x).zero_power = some true) ∧
    (((powerConv x 0 (powerConv x 0 priv opts now).2 opts n2).1.chan x).power = some 0 ∧
     ((powerConv x 0 (powerConv x 0 priv opts now).2 opts n2).1.chan x).energy_flow =
       some Flow.consuming ∧
     ((powerConv x 0 (powerConv x 0 priv opts now).2 opts n2).1.chan x).current = some 0 ∧
     ((powerConv x 0 (powerConv x 0 priv opts now).2 opts n2).1.chan x).power_factor =
       some 100) ∧
    ((currentConv x 0 priv opts now).1 = emptyResult ∧
     ((currentConv x 0 priv opts now).2.chan x).sign = none ∧
     ((currentConv x 0 priv opts now).2.chan x).power = none ∧
     ((currentConv x 0 priv opts now).2.chan x).current = none ∧
     ((currentConv x 0 priv opts now).2.chan x).power_factor = none ∧
     ((currentConv x 0 priv opts now).2.chan x).timestamp = some now ∧
     ((currentConv x 0 priv opts now).2.chan x).zero_current = some true) ∧
    ((powerConv x v priv opts now).2.chan x).zero_power = some false := by
  have htp := truthy_ne_true _ hflag
  have htc := truthy_ne_true _ hflagc
  have part1 :
      (powerConv x 0 priv opts now).1 = emptyResult ∧
      ((powerConv x 0 priv opts now).2.chan x).sign = none ∧
      ((powerConv x 0 priv opts now).2.chan x).power = none ∧
      ((powerConv x 0 priv opts now).2.chan x).current = none ∧
      ((powerConv x 0 priv opts now).2.chan x).power_factor = none ∧
      ((powerConv x 0 priv opts now).2.chan x).timestamp = some now ∧
      ((powerConv x 0 priv opts now).2.chan x).zero_power = some true := by
    cases x <;>
      simp only [Priv.chan] at htp <;>
      simp [powerConv, flushNull, flushAll, Priv.chan, Priv.setChan, hz, htp]
  refine ⟨part1, ?_, ?_, ?_⟩
  · exact powerConv_zero_flagSet x (powerConv x 0 priv opts now).2 opts n2
      part1.2.2.2.2.2.2 hs
  · cases x <;>
      simp only [Priv.chan] at htc <;>
      simp [currentConv, flushNull, flushAll, Priv.chan, Priv.setChan, hz, htc]
  · cases x <;> simp [powerConv, hv, Priv.chan, Priv.setChan]

/-- Witness for C7 at channel a, the fresh state (flags unset), suppression
enabled, and the nonzero value 7. -/
theorem single_zero_suppression_witness :
    (oZero.single_zero_remove = true ∧
     (initPriv.chan Chan.a).zero_power ≠ some true ∧
     (initPriv.chan Chan.a).zero_current ≠ some true ∧
     getSignedPower oZero Chan.a = false ∧ (7 : ℚ) ≠ 0) ∧
    (((powerConv Chan.a 0 initPriv oZero 3).1 = emptyResult ∧
      ((powerConv Chan.a 0 initPriv oZero 3).2.chan Chan.a).sign = none ∧
      ((powerConv Chan.a 0 initPriv oZero 3).2.chan Chan.a).power = none ∧
      ((powerConv Chan.a 0 initPriv oZero 3).2.chan Chan.a).current = none ∧
      ((powerConv Chan.a 0 initPriv oZero 3).2.chan Chan.a).power_factor = none ∧
      ((powerConv Chan.a 0 initPriv oZero 3).2.chan Chan.a).timestamp = some 3 ∧
      ((powerConv Chan.a 0 initPriv oZero 3).2.chan Chan.a).zero_power = some true) ∧
     (((powerConv Chan.a 0 (powerConv Chan.a 0 initPriv oZero 3).2 oZero 4).1.chan Chan.a).power = some 0 ∧
      ((powerConv Chan.a 0 (powerConv Chan.a 0 initPriv oZero 3).2 oZero 4).1.chan Chan.a).energy_flow =
        some Flow.consuming ∧
      ((powerConv Chan.a 0 (powerConv Chan.a 0 initPriv oZero 3).2 oZero 4).1.chan Chan.a).current = some 0 ∧
      ((powerConv Chan.a 0 (powerConv Chan.a 0 initPriv oZero 3).2 oZero 4).1.chan Chan.a).power_factor =
        some 100) ∧
     (((currentConv Chan.a 0 initPriv oZero 3).1 = emptyResult ∧
       ((currentConv Chan.a 0 initPriv oZero 3).2.chan Chan.a).sign = none ∧
       ((currentConv Chan.a 0 initPriv oZero 3).2.chan Chan.a).power = none ∧
       ((currentConv Chan.a 0 initPriv oZero 3).2.chan Chan.a).current = none ∧
       ((currentConv Chan.a 0 initPriv oZero 3).2.chan Chan.a).power_factor = none ∧
       ((currentConv Chan.a 0 initPriv oZero 3).2.chan Chan.a).timestamp = some 3 ∧
       ((currentConv Chan.a 0 initPriv oZero 3).2.chan Chan.a).zero_current = some true)) ∧
     ((powerConv Chan.a 7 initPriv oZero 3).2.chan Chan.a).zero_power = some false) :=
  ⟨⟨rfl, by simp [initPriv, initChan, Priv.chan], by simp [initPriv, initChan, Priv.chan],
    rfl, by norm_num⟩,
   single_zero_suppression Chan.a initPriv oZero 3 4 7 rfl
     (by simp [initPriv, initChan, Priv.chan]) (by simp [initPriv, initChan, Priv.chan])
     rfl (by norm_num)⟩

/-! ## Claim C8: the received combined-total datapoint -/

/-- C8 counterexample.  In the v1 variant the datapoint table maps the
combined-total datapoint 115 to the attribute power_ab through the scaling
converter, so the received value 427 IS published as power_ab 42.7 rather
than discarded. -/
theorem power_ab_datapoint_counterexample :
    (v1Dp115PowerAb 427).power_ab = some (427 / 10) ∧
    (v1Dp115PowerAb 427).power_ab ≠ none := by
  constructor
  · rfl
  · simp [v1Dp115PowerAb, divideBy10From, v1EmptyResult]

/-- C8 (amended).  In the v3/v5 variants the received datapoint-115 value is
always discarded (the converter returns the empty record) and any published
power_ab is produced by the recomputation formula from the two most recently
published signed powers; the v1 variant instead publishes the received value
directly as power_ab. -/
theorem power_ab_discarded (v : ℚ) (result : Result) (priv : Priv) (opts : Options) :
    powerAbConv v = emptyResult ∧
    ((recomputePowerAb result priv opts).1.power_ab = result.power_ab ∨
     ∃ pa pb, ((recomputePowerAb result priv opts).2).a.pub_power = some pa ∧
       ((recomputePowerAb result priv opts).2).b.pub_power = some pb ∧
       (recomputePowerAb result priv opts).1.power_ab =
         some ((jsRound (10 * pa + 10 * pb) : ℚ) / 10)) := by
  refine ⟨rfl, ?_⟩
  rcases hra : result.a.power with _ | qa
  · rcases hrb : result.b.power with _ | qb
    · left
      simp [recomputePowerAb, hra, hrb]
    · rcases hpa : priv.a.pub_power with _ | qa2
      · left
        simp [recomputePowerAb, hra, hrb, hpa]
      · right
        exact ⟨qa2, qb * (if result.b.energy_flow = some Flow.producing then -1 else 1),
               by simp [recomputePowerAb, hra, hrb, hpa],
               by simp [recomputePowerAb, hra, hrb, hpa],
               by simp [recomputePowerAb, hra, hrb, hpa]⟩
  · rcases hrb : result.b.power with _ | qb
    · rcases hpb : priv.b.pub_power with _ | qb2
      · left
        simp [recomputePowerAb, hra, hrb, hpb]
      · right
        exact ⟨qa * (if result.a.energy_flow = some Flow.producing then -1 else 1), qb2,
               by simp [recomputePowerAb, hra, hrb, hpb],
               by simp [recomputePowerAb, hra, hrb, hpb],
               by simp [recomputePowerAb, hra, hrb, hpb]⟩
    · right
      exact ⟨qa * (if result.a.energy_flow = some Flow.producing then -1 else 1),
             qb * (if result.b.energy_flow = some Flow.producing then -1 else 1),
             by simp [recomputePowerAb, hra, hrb],
             by simp [recomputePowerAb, hra, hrb],
             by simp [recomputePowerAb, hra, hrb]⟩

/-! ## Claim C9: the first message and the sentinel -/

/-- C9 counterexample.  On the fresh state (last_seq sentinel -99999) the
very first message with sequence number 0 DOES take the gap-clearing branch:
the claim that the branch is never taken on the first message is false. -/
theorem first_message_gap_counterexample : gapDetected initPriv 0 = true := by
  decide

/-- C9 (amended).  The gap-clearing branch IS taken on the first message for
every first sequence number in [0, 65536) other than 31329, but it is
harmless: all pending fields of the fresh state are already empty, so the
first message only establishes the baseline last_seq. -/
theorem first_message_baseline (seq : ℤ) (h0 : 0 ≤ seq) (h1 : seq < 65536) :
    fzTrackSeq initPriv seq = { initPriv with last_seq := seq } ∧
    (gapDetected initPriv seq = true ↔ seq ≠ 31329) := by
  constructor
  · have hcl : clearPending initPriv = initPriv := rfl
    simp [fzTrackSeq, hcl]
  · simp only [gapDetected, expectedSeq, and16, initPriv, Bool.and_eq_true,
               decide_eq_true_eq]
    omega

/-- Witness for C9 at the first sequence number 0. -/
theorem first_message_baseline_witness :
    ((0 : ℤ) ≤ 0 ∧ (0 : ℤ) < 65536) ∧
    (fzTrackSeq initPriv 0 = { initPriv with last_seq := 0 } ∧
     (gapDetected initPriv 0 = true ↔ (0 : ℤ) ≠ 31329)) :=
  ⟨⟨le_refl 0, by norm_num⟩, first_message_baseline 0 (le_refl 0) (by norm_num)⟩

/-! ## Claim C10: unresolvable direction codes -/

/-- C10 counterexample.  In the v5 variant the out-of-range direction code 2
resolves to sign +1 (exactly like the in-range code 0), and after completing
the field set the emitted label is consuming: no unknown label is ever
produced. -/
theorem unknown_code_counterexample :
    energyFlowSignOf 2 = 1 ∧
    (energyFlowConv Chan.a 2 initPriv optsDefault).2.a.sign = some 1 ∧
    ((powerFactorConv Chan.a 95
        (currentConv Chan.a 1000
          (powerConv Chan.a 150
            (energyFlowConv Chan.a 2 initPriv optsDefault).2 optsDefault 7).2
          optsDefault 7).2
        optsDefault).1.a.energy_flow) = some Flow.consuming := by
  exact ⟨rfl, rfl, rfl⟩

/-- C10 (amended).  In the v1 variant every direction code outside the known
set resolves to the explicit unknown label (never failing, since the
resolver is total), the label is buffered, and in the immediate publishing
mode it is emitted at once rather than suppressed. -/
theorem unknown_code_resolution (x : Chan) (v : ℤ) (priv : V1Priv) (opts : V1Options)
    (h0 : v ≠ 0) (h1 : v ≠ 1) (hm : opts.publishing_mode = PubMode.immediate) :
    v1ResolveFlow v = Flow.unknown ∧
    ((v1EnergyFlowConv x v priv opts).2.chan x).energy_flow = some Flow.unknown ∧
    ((v1EnergyFlowConv x v priv opts).1.chan x).energy_flow = some (some Flow.unknown) := by
  have hres : v1ResolveFlow v = Flow.unknown := by
    simp [v1ResolveFlow, h0, h1]
  refine ⟨hres, ?_, ?_⟩ <;>
    cases x <;>
      simp [v1EnergyFlowConv, hres, hm, v1NextSeq, V1Priv.chan, V1Priv.setChan,
            V1Result.chan, V1Result.setChan, v1EmptyResult, v1EmptyChanResult]

/-- Witness for C10 at direction code 2 on channel b. -/
theorem unknown_code_resolution_witness :
    ((2 : ℤ) ≠ 0 ∧ (2 : ℤ) ≠ 1 ∧
     v1OptsDefault.publishing_mode = PubMode.immediate) ∧
    (v1ResolveFlow 2 = Flow.unknown ∧
     ((v1EnergyFlowConv Chan.b 2 v1InitPriv v1OptsDefault).2.chan Chan.b).energy_flow =
       some Flow.unknown ∧
     ((v1EnergyFlowConv Chan.b 2 v1InitPriv v1OptsDefault).1.chan Chan.b).energy_flow =
       some (some Flow.unknown)) :=
  ⟨⟨by decide, by decide, rfl⟩,
   unknown_code_resolution Chan.b 2 v1InitPriv v1OptsDefault (by decide) (by decide) rfl⟩

end PJ1203A
